import Mathlib

/-
Verification of the scripture ingestion & normalization pipeline of the
vedic-vangamaya web application.

The repository's core is an admin-gated ingestion endpoint (`POST` in
`src/app/gita/[chapter]/[verse]/page.tsx`) that validates an untyped
scripture JSON payload, normalizes it, persists a raw artifact and a
normalized artifact, and reports a summary.  The navigation pages
(`GitaCommentaries`, `GitaCommentariesLayout`, `GitaCommentaryPage`)
sort chapter and verse keys numerically for display.

JSON values are embedded as the inductive `Json`.  JavaScript objects
are association lists of string keys; machine numbers that occur in the
pipeline are integers.  The filesystem is modelled explicitly: each
`fs` operation of the handler either succeeds or fails with an error
message, and the writes actually performed are returned as an ordered
list of (path, bytes) pairs.

The validator (`validateBhagavadGitaShastra`) and the normalizer
(`normalizeBhagavadGita`) live in repository modules that are not part
of the provided sources (only their caller is); they are modelled from
the specification, as marked on their doc comments.
-/

/-- A JSON value: the universe over which the untyped pipeline operates.
JavaScript objects are modelled as ordered association lists. -/
inductive Json where
  | null
  | bool (b : Bool)
  | num (n : Int)
  | str (s : String)
  | arr (elems : List Json)
  | obj (fields : List (String × Json))

/-- First-match key lookup in an object's field list, mirroring
JavaScript property access on parsed JSON (keys are unique after
`JSON.parse`, so first match is the match). -/
def lookupField : List (String × Json) → String → Option Json
  | [], _ => none
  | (k, v) :: fs, name => if k = name then some v else lookupField fs name

/-- Property access `j[name]`: `some` value for an object field that is
present, `none` otherwise. -/
def getField (j : Json) (name : String) : Option Json :=
  match j with
  | .obj fs => lookupField fs name
  | _ => none

/-- The JavaScript `name in body` test. -/
def hasField (j : Json) (name : String) : Bool :=
  (getField j name).isSome

/-- `Object.keys`. -/
def jsonKeys : Json → List String
  | .obj fs => fs.map Prod.fst
  | _ => []

/-- `Object.values`. -/
def jsonValues : Json → List Json
  | .obj fs => fs.map Prod.snd
  | _ => []

/-- The numeric value of one decimal digit character, `none` for a
non-digit.  (Own recursion over characters: library string parsing is
avoided so that every definition evaluates by kernel reduction.) -/
def charDigit? (c : Char) : Option Nat :=
  if 48 ≤ c.toNat ∧ c.toNat ≤ 57 then some (c.toNat - 48) else none

/-- Parse a non-empty run of decimal digits, most significant first. -/
def parseDigits : List Char → Nat → Option Nat
  | [], acc => some acc
  | c :: cs, acc =>
    match charDigit? c with
    | some d => parseDigits cs (acc * 10 + d)
    | none => none

/-- Parse a string as a base-ten natural number, `none` if it is empty
or contains a non-digit. -/
def strToNat? (s : String) : Option Nat :=
  match s.data with
  | [] => none
  | cs => parseDigits cs 0

/-- The numeric value `Number(key)` of a mapping key, as used by the
navigation sort and the normalizer's location stamps.  Defaults to `0`
on a non-numeric key (such keys are rejected by the validator and are
outside the numeric-key contract). -/
def keyNat (s : String) : Nat :=
  (strToNat? s).getD 0

/-- A structured validation error record: offending field path plus a
human-readable reason, per the `ValidationResult` contract. -/
structure ValidationError where
  path : String
  reason : String
deriving DecidableEq

/-- `ValidationResult`: `ok` flag, the validated value when `ok`, and
the ordered error list when not. -/
structure ValidationResult where
  ok : Bool
  value : Option Json
  errors : List ValidationError

/-- Modelled from the spec: a mapping key must be the canonical string
form of a positive integer — numeric, not zero-padded, not empty —
because navigation compares keys numerically and the validator must not
silently coerce (`bhagavadGitaValidation` module, absent from the
provided sources). -/
def isCanonicalPosIntKey (s : String) : Bool :=
  match strToNat? s with
  | some n => decide (0 < n) && decide (toString n = s)
  | none => false

/-- Modelled from the spec: errors for one `languages` entry of a
verse — the entry must be an object whose `text` is a non-empty
string. -/
def langEntryErrors (path : String) (entry : String × Json) : List ValidationError :=
  match entry.2 with
  | .obj _ =>
    match getField entry.2 "text" with
    | none => [⟨path ++ "." ++ entry.1 ++ ".text", "missing"⟩]
    | some (.str t) =>
      if t.data.isEmpty then [⟨path ++ "." ++ entry.1 ++ ".text", "empty text"⟩] else []
    | some _ => [⟨path ++ "." ++ entry.1 ++ ".text", "wrong type"⟩]
  | _ => [⟨path ++ "." ++ entry.1, "wrong type"⟩]

/-- Does a `languages` entry carry a non-empty `text` string? -/
def entryHasNonEmptyText (entry : String × Json) : Bool :=
  match getField entry.2 "text" with
  | some (.str t) => !t.data.isEmpty
  | _ => false

/-- One "duplicate key" error per mapping key that occurs more than
once. -/
def dupKeyErrors (path : String) (keys : List String) : List ValidationError :=
  ((keys.filter (fun k => 2 ≤ keys.count k)).dedup).map
    (fun k => ⟨path ++ "." ++ k, "duplicate key"⟩)

/-- Modelled from the spec: errors for one commentary entry — the
entry's `author.id` must equal its map key and at least one
`languages.*.text` must be non-empty (`bhagavadGitaValidation` module,
absent from the provided sources). -/
def commentaryErrors (path : String) (key : String) (j : Json) : List ValidationError :=
  match j with
  | .obj _ =>
    (match getField j "author" with
     | none => [⟨path ++ ".author", "missing"⟩]
     | some (.obj _) =>
       (match getField ((getField j "author").getD Json.null) "id" with
        | none => [⟨path ++ ".author.id", "missing"⟩]
        | some (.str i) => if i = key then [] else [⟨path, "key/value mismatch"⟩]
        | some _ => [⟨path ++ ".author.id", "wrong type"⟩])
     | some _ => [⟨path ++ ".author", "wrong type"⟩]) ++
    (match getField j "languages" with
     | none => [⟨path ++ ".languages", "missing"⟩]
     | some (.obj ls) =>
       if ls.any entryHasNonEmptyText then [] else [⟨path ++ ".languages", "empty text"⟩]
     | some _ => [⟨path ++ ".languages", "wrong type"⟩])
  | _ => [⟨path, "wrong type"⟩]

/-- Modelled from the spec: errors for one verse entry — canonical
positive-integer key, `number` field equal to the key, a non-empty
`languages` mapping whose entries each carry non-empty `text`, and,
when `commentaries` is present, well-formed commentary entries. -/
def verseErrors (path : String) (key : String) (j : Json) : List ValidationError :=
  (if isCanonicalPosIntKey key then [] else [⟨path, "wrong type"⟩]) ++
  match j with
  | .obj _ =>
    (match getField j "number" with
     | none => [⟨path ++ ".number", "missing"⟩]
     | some (.num n) => if toString n = key then [] else [⟨path, "key/value mismatch"⟩]
     | some _ => [⟨path ++ ".number", "wrong type"⟩]) ++
    (match getField j "languages" with
     | none => [⟨path ++ ".languages", "missing"⟩]
     | some (.obj ls) =>
       (if ls.isEmpty then [⟨path ++ ".languages", "empty"⟩] else []) ++
       dupKeyErrors (path ++ ".languages") (ls.map Prod.fst) ++
       ls.flatMap (langEntryErrors (path ++ ".languages"))
     | some _ => [⟨path ++ ".languages", "wrong type"⟩]) ++
    (match getField j "commentaries" with
     | none => []
     | some (.obj cs) =>
       dupKeyErrors (path ++ ".commentaries") (cs.map Prod.fst) ++
       cs.flatMap (fun p => commentaryErrors (path ++ ".commentaries." ++ p.1) p.1 p.2)
     | some _ => [⟨path ++ ".commentaries", "wrong type"⟩])
  | _ => [⟨path, "wrong type"⟩]

/-- Modelled from the spec: errors for one chapter entry — canonical
positive-integer key, `number` field equal to the key, and a `verses`
mapping whose entries are validated in turn. -/
def chapterErrors (path : String) (key : String) (j : Json) : List ValidationError :=
  (if isCanonicalPosIntKey key then [] else [⟨path, "wrong type"⟩]) ++
  match j with
  | .obj _ =>
    (match getField j "number" with
     | none => [⟨path ++ ".number", "missing"⟩]
     | some (.num n) => if toString n = key then [] else [⟨path, "key/value mismatch"⟩]
     | some _ => [⟨path ++ ".number", "wrong type"⟩]) ++
    (match getField j "verses" with
     | none => [⟨path ++ ".verses", "missing"⟩]
     | some (.obj vs) =>
       dupKeyErrors (path ++ ".verses") (vs.map Prod.fst) ++
       vs.flatMap (fun p => verseErrors (path ++ ".verses." ++ p.1) p.1 p.2)
     | some _ => [⟨path ++ ".verses", "wrong type"⟩])
  | _ => [⟨path, "wrong type"⟩]

/-- Modelled from the spec: the Validator.  Decides whether an
arbitrary value is a well-formed Shastra document; returns `ok=true`
with the value itself, or `ok=false` with the ordered list of every
error found in one pass (deeper traversal is skipped only under a
structurally-invalid ancestor).  The `bhagavadGitaValidation` module is
absent from the provided sources.  `shastraErrors` is the one-pass
error list; the result is assembled below. -/
def shastraErrors (raw : Json) : List ValidationError :=
  match getField raw "chapters" with
  | none => [⟨"chapters", "missing"⟩]
  | some (.obj cs) =>
    dupKeyErrors "chapters" (cs.map Prod.fst) ++
    cs.flatMap (fun p => chapterErrors ("chapters." ++ p.1) p.1 p.2)
  | some _ => [⟨"chapters", "wrong type"⟩]

/-- Modelled from the spec: the Validator's result — `ok` exactly when
the one-pass error list is empty. -/
def validateBhagavadGitaShastra (raw : Json) : ValidationResult :=
  if (shastraErrors raw).isEmpty then ⟨true, some raw, []⟩
  else ⟨false, none, shastraErrors raw⟩

/-- The singleton field list `[(name, j[name])]` when the field is
present, `[]` otherwise: used by the normalizer to carry a source field
over unchanged. -/
def optField (j : Json) (name : String) : List (String × Json) :=
  match getField j name with
  | some v => [(name, v)]
  | none => []

/-- The field list of a chapter's `verses` mapping (empty when absent
or not an object). -/
def versesList (c : Json) : List (String × Json) :=
  match getField c "verses" with
  | some (.obj vs) => vs
  | _ => []

/-- The field list of a document's `chapters` mapping (empty when
absent or not an object). -/
def chaptersList (j : Json) : List (String × Json) :=
  match getField j "chapters" with
  | some (.obj cs) => cs
  | _ => []

/-- Modelled from the spec: normalized form of one verse — `number`
and the denormalized `location : \x7bchapter, verse\x7d` stamp are
derived from the container keys (never from an author-supplied field);
`languages` and `commentaries` (the latter keyed by author id, as
validated) are carried over (`bhagavadGitaNormalization` module, absent
from the provided sources). -/
def normVerse (ck vk : Nat) (v : Json) : Json :=
  Json.obj ([("number", Json.num (Int.ofNat vk)),
    ("location", Json.obj [("chapter", Json.num (Int.ofNat ck)), ("verse", Json.num (Int.ofNat vk))])]
    ++ optField v "languages" ++ optField v "commentaries")

/-- Modelled from the spec: normalized form of one chapter — `number`
derived from the chapter key, `title` carried over, every verse
normalized under its own key. -/
def normChapter (ck : Nat) (c : Json) : Json :=
  Json.obj ([("number", Json.num (Int.ofNat ck))] ++ optField c "title" ++
    [("verses", Json.obj ((versesList c).map (fun p => (p.1, normVerse ck (keyNat p.1) p.2))))])

/-- Modelled from the spec: the Normalizer.  Pure transformation of a
validated Shastra value into the canonical NormalizedScripture: a
`chapters` mapping whose keys are kept (the Validator has already
forced them canonical) and whose verses all carry location stamps
derived from their container keys.  The `bhagavadGitaNormalization`
module is absent from the provided sources. -/
def normalizeBhagavadGita (j : Json) : Json :=
  Json.obj [("chapters",
    Json.obj ((chaptersList j).map (fun p => (p.1, normChapter (keyNat p.1) p.2))))]

/-- `n` spaces, for `JSON.stringify` indentation. -/
def jindent (n : Nat) : String := String.mk (List.replicate n ' ')

/-- `JSON.stringify` escaping of one character inside a string
literal. -/
def jescapeChar (c : Char) : String :=
  if c = '"' then "\\\"" else if c = '\\' then "\\\\"
  else if c = '\n' then "\\n" else if c = '\t' then "\\t"
  else if c = '\r' then "\\r" else String.mk [c]

/-- `JSON.stringify` rendering of a string literal. -/
def jescape (s : String) : String :=
  "\"" ++ String.join (s.data.map jescapeChar) ++ "\""

mutual

/-- `JSON.stringify(v, null, 2)` at nesting indentation `ind`: the
serialized bytes of a JSON value. -/
def stringifyJson (ind : Nat) : Json → String
  | .null => "null"
  | .bool b => if b then "true" else "false"
  | .num n => toString n
  | .str s => jescape s
  | .arr xs =>
    match xs with
    | [] => "[]"
    | _ => "[\n" ++ stringifyArrItems ind xs ++ "\n" ++ jindent ind ++ "]"
  | .obj fs =>
    match fs with
    | [] => "\x7b\x7d"
    | _ => "\x7b\n" ++ stringifyObjItems ind fs ++ "\n" ++ jindent ind ++ "\x7d"

/-- Array elements, comma-and-newline separated, each on its own
indented line. -/
def stringifyArrItems (ind : Nat) : List Json → String
  | [] => ""
  | [x] => jindent (ind + 2) ++ stringifyJson (ind + 2) x
  | x :: xs => jindent (ind + 2) ++ stringifyJson (ind + 2) x ++ ",\n" ++ stringifyArrItems ind xs

/-- Object fields, comma-and-newline separated, each on its own
indented line. -/
def stringifyObjItems (ind : Nat) : List (String × Json) → String
  | [] => ""
  | [(k, v)] => jindent (ind + 2) ++ jescape k ++ ": " ++ stringifyJson (ind + 2) v
  | (k, v) :: fs =>
    jindent (ind + 2) ++ jescape k ++ ": " ++ stringifyJson (ind + 2) v ++ ",\n" ++
      stringifyObjItems ind fs

end

/-- `JSON.stringify(v, null, 2)`: the bytes the handler writes to
disk. -/
def stringify2 (j : Json) : String := stringifyJson 0 j

/-- The success summary `\x7b chapters, verses \x7d` returned to the
caller. -/
structure Summary where
  chapters : Nat
  verses : Nat
deriving DecidableEq

/-- The JSON body of a `Response.json` produced by the `POST` handler,
with its HTTP status.  Absent optional fields are `none` (JavaScript
`undefined`, dropped by serialization). -/
structure ApiResponse where
  status : Nat
  ok : Bool
  message : String
  errors : Option (List ValidationError)
  details : Option String
  normalizedSummary : Option Summary
  rawPath : Option String
  normalizedPath : Option String
  ephemeralWarning : Option String

/-- An early-exit error response: `ok=false`, a message, nothing
else. -/
def errResponse (status : Nat) (message : String) : ApiResponse :=
  ⟨status, false, message, none, none, none, none, none, none⟩

/-- The response for a failed validation: HTTP 400 with the full error
list. -/
def validationFailResponse (errs : List ValidationError) : ApiResponse :=
  ⟨400, false, "Validation failed", some errs, none, none, none, none, none⟩

/-- The response for a failed filesystem operation: HTTP 500 with the
underlying store error message attached as `details`. -/
def fsFailResponse (e : String) : ApiResponse :=
  ⟨500, false, "Failed to write scripture data to the filesystem.", none, some e,
    none, none, none, none⟩

/-- The request-scoped environment of one `POST` invocation: the
`SCRIPTURE_ADMIN_SECRET` environment variable, the
`SCRIPTURE_FS_EPHEMERAL === "true"` flag, the parsed request body
(`none` when `request.json()` threw), `process.cwd()`, and
`new Date().toISOString()`. -/
structure IngestRequest where
  adminSecret : Option String
  fsEphemeral : Bool
  body : Option Json
  cwd : String
  nowIso : String

/-- The outcome each filesystem operation of the handler would have if
reached, in program order: `none` is success, `some e` is a thrown
error with message `e`. -/
structure FsBehavior where
  mkdirRawErr : Option String
  mkdirNormErr : Option String
  writeRawErr : Option String
  writeNormErr : Option String

/-- The composite body-envelope check of the handler: the parsed body
must be a non-null, non-array object that has both `adminPassword` and
`payload` fields.  (`!body`, the `typeof` test and `Array.isArray`
together reject every non-object JSON value.) -/
def envelopeOk (body : Json) : Bool :=
  match body with
  | .obj _ => hasField body "adminPassword" && hasField body "payload"
  | _ => false

/-- `new Date().toISOString().replace(/:/g, "-")`: every colon of the
timestamp becomes a dash. -/
def timestampSafeOf (iso : String) : String :=
  String.mk (iso.data.map (fun c => if c = ':' then '-' else c))

/-- `path.join(process.cwd(), "src", "modules", "scripture",
"raw-data")`. -/
def rawDirOf (cwd : String) : String :=
  cwd ++ "/src/modules/scripture/raw-data"

/-- `path.join(process.cwd(), "src", "modules", "scripture",
"data")`. -/
def normalizedDirOf (cwd : String) : String :=
  cwd ++ "/src/modules/scripture/data"

/-- The timestamp-qualified path of the raw (audit-trail) artifact for
one ingestion. -/
def rawPathOf (cwd iso : String) : String :=
  rawDirOf cwd ++ "/" ++ (timestampSafeOf iso ++ "-bhagavad-gita-raw.json")

/-- The fixed well-known path of the normalized artifact. -/
def normalizedPathOf (cwd : String) : String :=
  normalizedDirOf cwd ++ "/normalized-bhagavad-gita.json"

/-- The post-authentication tail of the handler: validate, normalize,
persist raw then normalized, and report.  Returns the response together
with the ordered list of filesystem writes actually performed. -/
def ingestValidated (req : IngestRequest) (fsv : FsBehavior) (payload : Json) :
    ApiResponse × List (String × String) :=
  match (validateBhagavadGitaShastra payload).value, (validateBhagavadGitaShastra payload).ok with
  | some value, true =>
    let normalized := normalizeBhagavadGita value
    let rawPath := rawPathOf req.cwd req.nowIso
    let normalizedPath := normalizedPathOf req.cwd
    let ephemeralWarning :=
      if req.fsEphemeral then
        some "Filesystem writes may be ephemeral in this environment. Data may not persist across restarts or deployments."
      else none
    match fsv.mkdirRawErr with
    | some e => (fsFailResponse e, [])
    | none =>
      match fsv.mkdirNormErr with
      | some e => (fsFailResponse e, [])
      | none =>
        match fsv.writeRawErr with
        | some e => (fsFailResponse e, [])
        | none =>
          match fsv.writeNormErr with
          | some e => (fsFailResponse e, [(rawPath, stringify2 value)])
          | none =>
            let chapterCount := (jsonKeys ((getField normalized "chapters").getD Json.null)).length
            let verseCount :=
              (jsonValues ((getField normalized "chapters").getD Json.null)).foldl
                (fun sum chapter =>
                  sum + (jsonKeys ((getField chapter "verses").getD Json.null)).length) 0
            (⟨200, true, "Ingest successful", none, none, some ⟨chapterCount, verseCount⟩,
               some rawPath, some normalizedPath, ephemeralWarning⟩,
             [(rawPath, stringify2 value), (normalizedPath, stringify2 normalized)])
  | _, _ => (validationFailResponse (validateBhagavadGitaShastra payload).errors, [])

/-- The `POST` handler of the ingestion endpoint, as in the source:
secret-configured check, body-parse check, envelope check,
`adminPassword` type check, secret comparison, then the
validate/normalize/persist pipeline. -/
def POST (req : IngestRequest) (fsv : FsBehavior) : ApiResponse × List (String × String) :=
  match req.adminSecret with
  | none =>
    (errResponse 500 "Server is not configured for scripture ingestion (SCRIPTURE_ADMIN_SECRET is missing).", [])
  | some adminSecret =>
    match req.body with
    | none => (errResponse 400 "Invalid JSON body.", [])
    | some body =>
      if envelopeOk body then
        match getField body "adminPassword" with
        | some (Json.str adminPassword) =>
          if adminPassword = adminSecret then
            ingestValidated req fsv ((getField body "payload").getD Json.null)
          else (errResponse 401 "Unauthorized", [])
        | _ => (errResponse 400 "adminPassword must be a string.", [])
      else
        (errResponse 400 "Request body must be an object with adminPassword and payload fields.", [])

/-- The number of entries in the normalized document's `chapters`
mapping: the chapter count the summary must report. -/
def chapterCountSpec (j : Json) : Nat := (chaptersList j).length

/-- The sum over all chapters of the number of entries in each
chapter's `verses` mapping: the verse count the summary must report. -/
def verseCountSpec (j : Json) : Nat :=
  ((chaptersList j).map (fun p => (versesList p.2).length)).sum

/-- Numeric ascending key sort, as written in the navigation
components: `Object.keys(m).sort((a, b) => Number(a) - Number(b))`
(a stable sort under numeric comparison of the keys). -/
def sortKeysNumeric (ks : List String) : List String :=
  ks.mergeSort (fun a b => decide (keyNat a ≤ keyNat b))

/-- The chapter-key sequence displayed by the navigation components. -/
def chapterKeysOf (data : Json) : List String :=
  sortKeysNumeric (jsonKeys ((getField data "chapters").getD Json.null))

/-- The verse-key sequence displayed for one chapter by the navigation
components. -/
def verseKeysOf (chapterData : Json) : List String :=
  sortKeysNumeric (jsonKeys ((getField chapterData "verses").getD Json.null))

/-! ### Helper lemmas about the normalizer -/

theorem getField_normVerse_languages (ck vk : Nat) (v : Json) :
    getField (normVerse ck vk v) "languages" = getField v "languages" := by
  cases hL : getField v "languages" <;> cases hC : getField v "commentaries" <;>
    (simp only [normVerse, optField, hL, hC]; simp [getField, lookupField])

theorem getField_normVerse_commentaries (ck vk : Nat) (v : Json) :
    getField (normVerse ck vk v) "commentaries" = getField v "commentaries" := by
  cases hL : getField v "languages" <;> cases hC : getField v "commentaries" <;>
    (simp only [normVerse, optField, hL, hC]; simp [getField, lookupField])

theorem getField_normVerse_location (ck vk : Nat) (v : Json) :
    getField (normVerse ck vk v) "location" =
      some (Json.obj [("chapter", Json.num (Int.ofNat ck)), ("verse", Json.num (Int.ofNat vk))]) := by
  cases hL : getField v "languages" <;> cases hC : getField v "commentaries" <;>
    (simp only [normVerse, optField, hL, hC]; simp [getField, lookupField])

theorem normVerse_idem (ck vk : Nat) (v : Json) :
    normVerse ck vk (normVerse ck vk v) = normVerse ck vk v := by
  conv_lhs => rw [normVerse]
  rw [optField, optField, getField_normVerse_languages, getField_normVerse_commentaries]
  rw [normVerse, optField, optField]

theorem getField_normChapter_title (ck : Nat) (c : Json) :
    getField (normChapter ck c) "title" = getField c "title" := by
  cases hT : getField c "title" <;>
    (simp only [normChapter, optField, hT]; simp [getField, lookupField])

theorem getField_normChapter_verses (ck : Nat) (c : Json) :
    getField (normChapter ck c) "verses" =
      some (Json.obj ((versesList c).map (fun p => (p.1, normVerse ck (keyNat p.1) p.2)))) := by
  cases hT : getField c "title" <;>
    (simp only [normChapter, optField, hT]; simp [getField, lookupField])

theorem versesList_normChapter (ck : Nat) (c : Json) :
    versesList (normChapter ck c) =
      (versesList c).map (fun p => (p.1, normVerse ck (keyNat p.1) p.2)) := by
  rw [versesList, getField_normChapter_verses]

theorem normChapter_idem (ck : Nat) (c : Json) :
    normChapter ck (normChapter ck c) = normChapter ck c := by
  conv_lhs => rw [normChapter]
  rw [optField, getField_normChapter_title, versesList_normChapter, List.map_map]
  have hf : ∀ p : String × Json,
      ((fun p : String × Json => (p.1, normVerse ck (keyNat p.1) p.2)) ∘
        (fun p : String × Json => (p.1, normVerse ck (keyNat p.1) p.2))) p =
      (fun p : String × Json => (p.1, normVerse ck (keyNat p.1) p.2)) p :=
    fun p => by simp [Function.comp, normVerse_idem]
  rw [funext hf, normChapter, optField]

theorem getField_normalize_chapters (j : Json) :
    getField (normalizeBhagavadGita j) "chapters" =
      some (Json.obj ((chaptersList j).map (fun p => (p.1, normChapter (keyNat p.1) p.2)))) := by
  simp [normalizeBhagavadGita, getField, lookupField]

theorem chaptersList_normalize (j : Json) :
    chaptersList (normalizeBhagavadGita j) =
      (chaptersList j).map (fun p => (p.1, normChapter (keyNat p.1) p.2)) := by
  rw [chaptersList, getField_normalize_chapters]

theorem normalizeBhagavadGita_idem (j : Json) :
    normalizeBhagavadGita (normalizeBhagavadGita j) = normalizeBhagavadGita j := by
  conv_lhs => rw [normalizeBhagavadGita]
  rw [chaptersList_normalize, List.map_map]
  have hf : ∀ p : String × Json,
      ((fun p : String × Json => (p.1, normChapter (keyNat p.1) p.2)) ∘
        (fun p : String × Json => (p.1, normChapter (keyNat p.1) p.2))) p =
      (fun p : String × Json => (p.1, normChapter (keyNat p.1) p.2)) p :=
    fun p => by simp [Function.comp, normChapter_idem]
  rw [funext hf, normalizeBhagavadGita]

/-! ### Concrete sample documents (used by witnesses) -/

/-- A well-formed verse: scenario 1 of the spec. -/
def v11 : Json := Json.obj [("number", Json.num 1),
  ("languages", Json.obj [("en", Json.obj [("text", Json.str "Hello")])])]

/-- A well-formed chapter holding `v11` under key "1". -/
def chap1 : Json := Json.obj [("number", Json.num 1),
  ("title", Json.obj [("en", Json.str "Ch1")]),
  ("verses", Json.obj [("1", v11)])]

/-- A well-formed Shastra document: one chapter, one verse. -/
def sampleDoc : Json := Json.obj [("chapters", Json.obj [("1", chap1)])]

/-! ### C2 and C3 -/

/-- C2: in the normalized document every verse's `location` stamp holds
exactly the numeric value of its containing chapter's map key and of
its own verse map key, as derived from the container keys. -/
theorem normalize_location_stamps_from_container_keys (S : Json)
    (h : (validateBhagavadGitaShastra S).ok = true)
    (p : String × Json) (hp : p ∈ chaptersList (normalizeBhagavadGita S))
    (q : String × Json) (hq : q ∈ versesList p.2) :
    getField q.2 "location" =
      some (Json.obj [("chapter", Json.num (Int.ofNat (keyNat p.1))),
                      ("verse", Json.num (Int.ofNat (keyNat q.1)))]) := by
  rw [chaptersList_normalize] at hp
  obtain ⟨p₀, hp₀, rfl⟩ := List.mem_map.1 hp
  rw [versesList_normChapter] at hq
  obtain ⟨q₀, hq₀, rfl⟩ := List.mem_map.1 hq
  exact getField_normVerse_location _ _ _

/-- C2 witness: the scenario-1 document, its only chapter and verse. -/
theorem normalize_location_stamps_witness :
    getField (normVerse 1 1 v11) "location" =
      some (Json.obj [("chapter", Json.num 1), ("verse", Json.num 1)]) :=
  normalize_location_stamps_from_container_keys sampleDoc (by decide)
    ("1", normChapter 1 chap1) (List.Mem.head _)
    ("1", normVerse 1 1 v11) (List.Mem.head _)

/-- C3: the normalizer is idempotent on every valid Shastra document:
normalizing an already-normalized document is a no-op. -/
theorem normalize_idempotent_on_valid (S : Json)
    (h : (validateBhagavadGitaShastra S).ok = true) :
    normalizeBhagavadGita (normalizeBhagavadGita S) = normalizeBhagavadGita S :=
  normalizeBhagavadGita_idem S

/-- C3 witness: the scenario-1 document is valid and re-normalizing it
is a no-op. -/
theorem normalize_idempotent_witness :
    normalizeBhagavadGita (normalizeBhagavadGita sampleDoc) = normalizeBhagavadGita sampleDoc :=
  normalize_idempotent_on_valid sampleDoc (by decide)

/-! ### Helper lemmas about the validator's error accumulation -/

theorem length_le_flatMap {α β : Type} (f : α → List β) {l : List α} {x : α} (hx : x ∈ l) :
    (f x).length ≤ (l.flatMap f).length := by
  induction l with
  | nil => cases hx
  | cons a l ih =>
    rw [List.flatMap_cons, List.length_append]
    rcases List.mem_cons.1 hx with h | h
    · rw [h]; exact Nat.le_add_right _ _
    · exact le_trans (ih h) (Nat.le_add_left _ _)

theorem two_le_flatMap_length {α β : Type} (f : α → List β) {l : List α} {a b : α}
    (ha : a ∈ l) (hb : b ∈ l) (hab : a ≠ b) (hfa : f a ≠ []) (hfb : f b ≠ []) :
    2 ≤ (l.flatMap f).length := by
  induction l with
  | nil => cases ha
  | cons x l ih =>
    rw [List.flatMap_cons, List.length_append]
    rcases List.mem_cons.1 ha with h1 | h1 <;> rcases List.mem_cons.1 hb with h2 | h2
    · exact absurd (h1.trans h2.symm) hab
    · have p1 : 0 < (f a).length := List.length_pos.2 hfa
      have p2 : 0 < (f b).length := List.length_pos.2 hfb
      have l2 := length_le_flatMap f h2
      rw [h1] at p1
      omega
    · have p1 : 0 < (f a).length := List.length_pos.2 hfa
      have p2 : 0 < (f b).length := List.length_pos.2 hfb
      have l1 := length_le_flatMap f h1
      rw [h2] at p2
      omega
    · exact le_trans (ih h1 h2) (Nat.le_add_left _ _)

/-- Evaluation of the validator on a document whose only field is a
`chapters` object. -/
theorem validate_on_chapters_obj (cs : List (String × Json)) :
    validateBhagavadGitaShastra (Json.obj [("chapters", Json.obj cs)]) =
      (let errs := dupKeyErrors "chapters" (cs.map Prod.fst) ++
         cs.flatMap (fun p => chapterErrors ("chapters." ++ p.1) p.1 p.2);
       if errs.isEmpty then ⟨true, some (Json.obj [("chapters", Json.obj cs)]), []⟩
       else ⟨false, none, errs⟩) := rfl

/-! ### C5 -/

/-- C5: on a payload with independent structural errors in two distinct
chapter entries (for example one malformed chapter and one malformed
verse inside a different, valid chapter), validation returns `ok=false`
with at least two error entries: it does not stop at the first
error. -/
theorem validate_reports_multiple_independent_errors
    (cs : List (String × Json)) (k₁ k₂ : String) (c₁ c₂ : Json)
    (h1 : (k₁, c₁) ∈ cs) (h2 : (k₂, c₂) ∈ cs) (hk : k₁ ≠ k₂)
    (he1 : chapterErrors ("chapters." ++ k₁) k₁ c₁ ≠ [])
    (he2 : chapterErrors ("chapters." ++ k₂) k₂ c₂ ≠ []) :
    (validateBhagavadGitaShastra (Json.obj [("chapters", Json.obj cs)])).ok = false ∧
    2 ≤ (validateBhagavadGitaShastra (Json.obj [("chapters", Json.obj cs)])).errors.length := by
  have hflat : 2 ≤ (cs.flatMap (fun p => chapterErrors ("chapters." ++ p.1) p.1 p.2)).length :=
    two_le_flatMap_length _ h1 h2
      (fun h => hk (congrArg Prod.fst h)) he1 he2
  have hlen : 2 ≤ (dupKeyErrors "chapters" (cs.map Prod.fst) ++
      cs.flatMap (fun p => chapterErrors ("chapters." ++ p.1) p.1 p.2)).length := by
    rw [List.length_append]; omega
  have hne : (dupKeyErrors "chapters" (cs.map Prod.fst) ++
      cs.flatMap (fun p => chapterErrors ("chapters." ++ p.1) p.1 p.2)).isEmpty = false := by
    rw [List.isEmpty_eq_false]
    intro h
    rw [h] at hlen
    simp at hlen
  rw [validate_on_chapters_obj]
  simp only [hne, Bool.false_eq_true, if_false]
  exact ⟨trivial, hlen⟩

/-- A chapter that is structurally valid except that the verse stored
under key "2" carries `number: 3` (scenario 2 of the spec). -/
def chapMismatch : Json := Json.obj [("number", Json.num 1),
  ("verses", Json.obj [("2", Json.obj [("number", Json.num 3),
    ("languages", Json.obj [("en", Json.obj [("text", Json.str "x")])])])])]

/-- C5 witness: a payload with one malformed chapter (key "7", a bare
number) and one malformed verse inside the distinct chapter "1" yields
`ok=false` and at least two error entries. -/
theorem validate_multiple_errors_witness :
    (validateBhagavadGitaShastra
      (Json.obj [("chapters", Json.obj [("1", chapMismatch), ("7", Json.num 5)])])).ok = false ∧
    2 ≤ (validateBhagavadGitaShastra
      (Json.obj [("chapters", Json.obj [("1", chapMismatch), ("7", Json.num 5)])])).errors.length :=
  validate_reports_multiple_independent_errors
    [("1", chapMismatch), ("7", Json.num 5)] "1" "7" chapMismatch (Json.num 5)
    (List.Mem.head _) (List.Mem.tail _ (List.Mem.head _))
    (by decide) (by decide) (by decide)

/-! ### C9 -/

/-- The numeric key sort used by navigation is sorted ascending by
`Number(key)`. -/
theorem sortKeysNumeric_sorted (ks : List String) :
    List.Sorted (fun a b => keyNat a ≤ keyNat b) (sortKeysNumeric ks) := by
  unfold sortKeysNumeric
  refine List.Pairwise.imp ?_ (List.sorted_mergeSort ?_ ?_ ks)
  · intro a b hab
    exact of_decide_eq_true hab
  · intro a b c hab hbc
    exact decide_eq_true (le_trans (of_decide_eq_true hab) (of_decide_eq_true hbc))
  · intro a b
    rcases Nat.le_total (keyNat a) (keyNat b) with h | h <;> simp [h]

/-- C9: the navigation components display chapter keys and verse keys
as a permutation of the mapping's keys, sorted ascending by the numeric
value of each key (not by map iteration order, not lexicographically);
stated for mappings whose keys are all numeric, which is what
`Number(key)` comparison presupposes. -/
theorem navigation_keys_numerically_sorted (data chapterData : Json)
    (hc : ∀ k ∈ jsonKeys ((getField data "chapters").getD Json.null),
      (strToNat? k).isSome = true)
    (hv : ∀ k ∈ jsonKeys ((getField chapterData "verses").getD Json.null),
      (strToNat? k).isSome = true) :
    ((chapterKeysOf data).Perm (jsonKeys ((getField data "chapters").getD Json.null)) ∧
     List.Sorted (fun a b => keyNat a ≤ keyNat b) (chapterKeysOf data)) ∧
    ((verseKeysOf chapterData).Perm (jsonKeys ((getField chapterData "verses").getD Json.null)) ∧
     List.Sorted (fun a b => keyNat a ≤ keyNat b) (verseKeysOf chapterData)) :=
  ⟨⟨List.mergeSort_perm _ _, sortKeysNumeric_sorted _⟩,
   ⟨List.mergeSort_perm _ _, sortKeysNumeric_sorted _⟩⟩

/-- A document whose chapter keys are deliberately out of order, with a
two-digit key that lexicographic sorting would misplace. -/
def navDoc : Json := Json.obj [("chapters", Json.obj
  [("10", Json.null), ("2", Json.null), ("1", Json.null)])]

/-- A chapter whose verse keys are deliberately out of order. -/
def navChap : Json := Json.obj [("verses", Json.obj
  [("3", Json.null), ("12", Json.null), ("1", Json.null)])]

/-- C9 witness: on concrete out-of-order numeric keys the displayed
sequences are permutations of the mapping keys sorted numerically. -/
theorem navigation_keys_sorted_witness :
    ((chapterKeysOf navDoc).Perm (jsonKeys ((getField navDoc "chapters").getD Json.null)) ∧
     List.Sorted (fun a b => keyNat a ≤ keyNat b) (chapterKeysOf navDoc)) ∧
    ((verseKeysOf navChap).Perm (jsonKeys ((getField navChap "verses").getD Json.null)) ∧
     List.Sorted (fun a b => keyNat a ≤ keyNat b) (verseKeysOf navChap)) :=
  navigation_keys_numerically_sorted navDoc navChap (by decide) (by decide)

/-! ### Helper lemmas about the POST workflow -/

theorem validate_ok_value (raw : Json)
    (h : (validateBhagavadGitaShastra raw).ok = true) :
    (validateBhagavadGitaShastra raw).value = some raw := by
  unfold validateBhagavadGitaShastra at h ⊢
  split_ifs at h ⊢ with hc
  rfl

/-- Given a configured secret, a parsed object body carrying the right
password and a payload, `POST` proceeds to the ingestion pipeline on
the payload. -/
theorem POST_auth (req : IngestRequest) (fsv : FsBehavior) (secret : String)
    (body payload : Json)
    (hs : req.adminSecret = some secret) (hb : req.body = some body)
    (henv : envelopeOk body = true)
    (hpw : getField body "adminPassword" = some (Json.str secret))
    (hp : getField body "payload" = some payload) :
    POST req fsv = ingestValidated req fsv payload := by
  unfold POST
  rw [hs, hb]
  simp [henv, hpw, hp]

/-- When validation fails, the pipeline returns the full error list and
performs no filesystem write. -/
theorem ingestValidated_invalid (req : IngestRequest) (fsv : FsBehavior) (payload : Json)
    (hv : (validateBhagavadGitaShastra payload).ok = false) :
    ingestValidated req fsv payload =
      (validationFailResponse (validateBhagavadGitaShastra payload).errors, []) := by
  unfold ingestValidated
  rcases hres : validateBhagavadGitaShastra payload with ⟨ok, val, errs⟩
  rw [hres] at hv
  simp only at hv
  subst hv
  cases val <;> simp

/-! ### C1 -/

/-- C1: whenever the payload fails validation, the POST workflow halts
with the full list of validation error records and performs no
filesystem write at all — no raw artifact, no normalized artifact. -/
theorem post_rejects_invalid_payload_without_writes
    (req : IngestRequest) (fsv : FsBehavior) (secret : String) (body payload : Json)
    (hs : req.adminSecret = some secret) (hb : req.body = some body)
    (henv : envelopeOk body = true)
    (hpw : getField body "adminPassword" = some (Json.str secret))
    (hp : getField body "payload" = some payload)
    (hv : (validateBhagavadGitaShastra payload).ok = false) :
    POST req fsv =
      (validationFailResponse (validateBhagavadGitaShastra payload).errors, []) := by
  rw [POST_auth req fsv secret body payload hs hb henv hpw hp]
  exact ingestValidated_invalid req fsv payload hv

/-- A structurally broken payload: `chapters` missing entirely. -/
def badDoc : Json := Json.obj [("data", Json.null)]

/-- A request body envelope carrying the bad payload and the correct
password. -/
def badBody : Json := Json.obj [("adminPassword", Json.str "s3cret"), ("payload", badDoc)]

/-- A fully configured request carrying `badBody`. -/
def badReq : IngestRequest :=
  ⟨some "s3cret", false, some badBody, "/app", "2026-01-01T00:00:00.000Z"⟩

/-- C1 witness: the bad payload is rejected with its full error list
and the write log stays empty. -/
theorem post_rejects_invalid_payload_witness :
    POST badReq ⟨none, none, none, none⟩ =
      (validationFailResponse (validateBhagavadGitaShastra badDoc).errors, []) :=
  post_rejects_invalid_payload_without_writes badReq ⟨none, none, none, none⟩
    "s3cret" badBody badDoc rfl rfl (by decide) rfl rfl (by decide)

theorem foldl_add_map {α : Type} (g : α → Nat) :
    ∀ (l : List α) (n : Nat), l.foldl (fun s x => s + g x) n = n + (l.map g).sum
  | [], n => by simp
  | x :: l, n => by
    rw [List.foldl_cons, foldl_add_map g l (n + g x), List.map_cons, List.sum_cons]
    omega

/-- The handler's chapter count equals the size of the normalized
`chapters` mapping. -/
theorem handler_chapterCount_eq (j : Json) :
    (jsonKeys ((getField (normalizeBhagavadGita j) "chapters").getD Json.null)).length =
      chapterCountSpec (normalizeBhagavadGita j) := by
  rw [getField_normalize_chapters, chapterCountSpec, chaptersList_normalize]
  simp [jsonKeys]

/-- The handler's reduce-computed verse count equals the sum of the
verse-mapping sizes of the normalized document. -/
theorem handler_verseCount_eq (j : Json) :
    (jsonValues ((getField (normalizeBhagavadGita j) "chapters").getD Json.null)).foldl
      (fun sum chapter => sum + (jsonKeys ((getField chapter "verses").getD Json.null)).length) 0 =
      verseCountSpec (normalizeBhagavadGita j) := by
  rw [getField_normalize_chapters, verseCountSpec, chaptersList_normalize]
  simp only [jsonValues, Option.getD_some]
  rw [foldl_add_map, Nat.zero_add]
  simp only [List.map_map]
  congr 1
  apply List.map_congr_left
  intro p _
  simp [Function.comp, getField_normChapter_verses, versesList_normChapter, jsonKeys]

/-- Full evaluation of the pipeline on a valid payload when every
filesystem operation succeeds. -/
theorem ingestValidated_ok (req : IngestRequest) (payload : Json)
    (hv : (validateBhagavadGitaShastra payload).ok = true) :
    ingestValidated req ⟨none, none, none, none⟩ payload =
      (⟨200, true, "Ingest successful", none, none,
         some ⟨chapterCountSpec (normalizeBhagavadGita payload),
               verseCountSpec (normalizeBhagavadGita payload)⟩,
         some (rawPathOf req.cwd req.nowIso), some (normalizedPathOf req.cwd),
         if req.fsEphemeral then
           some "Filesystem writes may be ephemeral in this environment. Data may not persist across restarts or deployments."
         else none⟩,
       [(rawPathOf req.cwd req.nowIso, stringify2 payload),
        (normalizedPathOf req.cwd, stringify2 (normalizeBhagavadGita payload))]) := by
  have hval := validate_ok_value payload hv
  unfold ingestValidated
  rw [hval, hv]
  simp only [handler_chapterCount_eq, handler_verseCount_eq]

/-! ### C4 -/

/-- C4: on every successful ingestion the summary reports exactly the
number of entries of the normalized `chapters` mapping and the sum over
all chapters of the sizes of their `verses` mappings, computed by
counting, not taken from the payload. -/
theorem post_success_summary_counts
    (req : IngestRequest) (secret : String) (body payload : Json)
    (hs : req.adminSecret = some secret) (hb : req.body = some body)
    (henv : envelopeOk body = true)
    (hpw : getField body "adminPassword" = some (Json.str secret))
    (hp : getField body "payload" = some payload)
    (hv : (validateBhagavadGitaShastra payload).ok = true) :
    (POST req ⟨none, none, none, none⟩).1.normalizedSummary =
      some ⟨chapterCountSpec (normalizeBhagavadGita payload),
            verseCountSpec (normalizeBhagavadGita payload)⟩ ∧
    (POST req ⟨none, none, none, none⟩).1.ok = true ∧
    (POST req ⟨none, none, none, none⟩).1.status = 200 := by
  rw [POST_auth req ⟨none, none, none, none⟩ secret body payload hs hb henv hpw hp,
      ingestValidated_ok req payload hv]
  exact ⟨rfl, rfl, rfl⟩

/-- A request body envelope carrying the valid scenario-1 payload. -/
def goodBody : Json := Json.obj [("adminPassword", Json.str "s3cret"), ("payload", sampleDoc)]

/-- A fully configured request carrying `goodBody`. -/
def goodReq : IngestRequest :=
  ⟨some "s3cret", false, some goodBody, "/app", "2026-01-01T00:00:00.000Z"⟩

/-- C4 witness: ingesting the scenario-1 document reports the counted
summary (one chapter, one verse) with a 200 success. -/
theorem post_success_summary_witness :
    (POST goodReq ⟨none, none, none, none⟩).1.normalizedSummary =
      some ⟨chapterCountSpec (normalizeBhagavadGita sampleDoc),
            verseCountSpec (normalizeBhagavadGita sampleDoc)⟩ ∧
    (POST goodReq ⟨none, none, none, none⟩).1.ok = true ∧
    (POST goodReq ⟨none, none, none, none⟩).1.status = 200 :=
  post_success_summary_counts goodReq "s3cret" goodBody sampleDoc
    rfl rfl (by decide) rfl rfl (by decide)

/-- Distinct sanitized timestamps yield distinct raw artifact paths:
the raw audit file of one ingestion never overwrites another's. -/
theorem rawPathOf_inj (cwd i₁ i₂ : String)
    (h : timestampSafeOf i₁ ≠ timestampSafeOf i₂) :
    rawPathOf cwd i₁ ≠ rawPathOf cwd i₂ := by
  intro he
  apply h
  have hd := congrArg String.data he
  simp only [rawPathOf, rawDirOf, String.data_append, List.append_assoc] at hd
  have h1 := List.append_cancel_left (List.append_cancel_left hd)
  have h2 := List.append_cancel_right (List.append_cancel_left h1)
  cases hA : timestampSafeOf i₁ with
  | mk d₁ =>
    cases hB : timestampSafeOf i₂ with
    | mk d₂ =>
      rw [hA, hB] at h2
      exact congrArg String.mk h2

/-! ### C6 -/

/-- C6: on every successful ingestion exactly two artifacts are
persisted, in order: first the validated raw value to a
timestamp-qualified path under `raw-data` (distinct sanitized
timestamps never collide, so a previous raw file is never overwritten),
then the normalized value to the single fixed path
`normalized-bhagavad-gita.json` (overwritten each success). -/
theorem post_success_writes_raw_then_normalized
    (req : IngestRequest) (secret : String) (body payload : Json) (iso₂ : String)
    (hs : req.adminSecret = some secret) (hb : req.body = some body)
    (henv : envelopeOk body = true)
    (hpw : getField body "adminPassword" = some (Json.str secret))
    (hp : getField body "payload" = some payload)
    (hv : (validateBhagavadGitaShastra payload).ok = true)
    (hts : timestampSafeOf req.nowIso ≠ timestampSafeOf iso₂) :
    (POST req ⟨none, none, none, none⟩).2 =
      [(rawPathOf req.cwd req.nowIso, stringify2 payload),
       (normalizedPathOf req.cwd, stringify2 (normalizeBhagavadGita payload))] ∧
    rawPathOf req.cwd req.nowIso =
      rawDirOf req.cwd ++ "/" ++ (timestampSafeOf req.nowIso ++ "-bhagavad-gita-raw.json") ∧
    normalizedPathOf req.cwd = normalizedDirOf req.cwd ++ "/normalized-bhagavad-gita.json" ∧
    rawPathOf req.cwd req.nowIso ≠ rawPathOf req.cwd iso₂ := by
  rw [POST_auth req ⟨none, none, none, none⟩ secret body payload hs hb henv hpw hp,
      ingestValidated_ok req payload hv]
  exact ⟨rfl, rfl, rfl, rawPathOf_inj req.cwd req.nowIso iso₂ hts⟩

/-- C6 witness: ingesting the scenario-1 document writes the raw
artifact then the normalized artifact, and a different timestamp would
use a different raw path. -/
theorem post_success_writes_witness :
    (POST goodReq ⟨none, none, none, none⟩).2 =
      [(rawPathOf goodReq.cwd goodReq.nowIso, stringify2 sampleDoc),
       (normalizedPathOf goodReq.cwd, stringify2 (normalizeBhagavadGita sampleDoc))] ∧
    rawPathOf goodReq.cwd goodReq.nowIso =
      rawDirOf goodReq.cwd ++ "/" ++
        (timestampSafeOf goodReq.nowIso ++ "-bhagavad-gita-raw.json") ∧
    normalizedPathOf goodReq.cwd =
      normalizedDirOf goodReq.cwd ++ "/normalized-bhagavad-gita.json" ∧
    rawPathOf goodReq.cwd goodReq.nowIso ≠ rawPathOf goodReq.cwd "2027-06-5T10:00:00.000Z" :=
  post_success_writes_raw_then_normalized goodReq "s3cret" goodBody sampleDoc
    "2027-06-5T10:00:00.000Z" rfl rfl (by decide) rfl rfl (by decide) (by decide)

/-- Whichever filesystem operation fails first, the pipeline's response
is the distinct persistence-failure response carrying the store error
message. -/
theorem ingestValidated_fsfail_resp (req : IngestRequest) (payload : Json) (e : String)
    (m₁ m₂ w₁ w₂ : Option String)
    (hv : (validateBhagavadGitaShastra payload).ok = true)
    (hfs : m₁ = some e ∨ (m₁ = none ∧ m₂ = some e) ∨
           (m₁ = none ∧ m₂ = none ∧ w₁ = some e) ∨
           (m₁ = none ∧ m₂ = none ∧ w₁ = none ∧ w₂ = some e)) :
    (ingestValidated req ⟨m₁, m₂, w₁, w₂⟩ payload).1 = fsFailResponse e := by
  have hval := validate_ok_value payload hv
  unfold ingestValidated
  rw [hval, hv]
  rcases hfs with h₁ | ⟨h₁, h₂⟩ | ⟨h₁, h₂, h₃⟩ | ⟨h₁, h₂, h₃, h₄⟩ <;> subst_vars <;> rfl

/-! ### C7 -/

/-- C7: when a filesystem write fails, the workflow returns the
persistence-failure response — a category distinct from a validation
failure (different status, message, and no `errors` field) — with the
underlying store error message attached as `details`. -/
theorem post_fs_failure_distinct_category
    (req : IngestRequest) (fsv : FsBehavior) (secret : String) (body payload : Json)
    (e : String) (errs₀ : List ValidationError)
    (hs : req.adminSecret = some secret) (hb : req.body = some body)
    (henv : envelopeOk body = true)
    (hpw : getField body "adminPassword" = some (Json.str secret))
    (hp : getField body "payload" = some payload)
    (hv : (validateBhagavadGitaShastra payload).ok = true)
    (hfs : fsv.mkdirRawErr = some e ∨
           (fsv.mkdirRawErr = none ∧ fsv.mkdirNormErr = some e) ∨
           (fsv.mkdirRawErr = none ∧ fsv.mkdirNormErr = none ∧ fsv.writeRawErr = some e) ∨
           (fsv.mkdirRawErr = none ∧ fsv.mkdirNormErr = none ∧ fsv.writeRawErr = none ∧
             fsv.writeNormErr = some e)) :
    (POST req fsv).1 = fsFailResponse e ∧
    (POST req fsv).1.details = some e ∧
    fsFailResponse e ≠ validationFailResponse errs₀ := by
  have hnever : fsFailResponse e ≠ validationFailResponse errs₀ := by
    intro hcontra
    have := congrArg ApiResponse.status hcontra
    simp [fsFailResponse, validationFailResponse] at this
  rw [POST_auth req fsv secret body payload hs hb henv hpw hp]
  obtain ⟨m₁, m₂, w₁, w₂⟩ := fsv
  have hresp := ingestValidated_fsfail_resp req payload e m₁ m₂ w₁ w₂ hv hfs
  exact ⟨hresp, by rw [hresp]; rfl, hnever⟩

/-- A one-failure filesystem behavior: the raw write throws. -/
def fsRawFail : FsBehavior := ⟨none, none, some "disk full", none⟩

/-- C7 witness: with a failing raw write the response is the
persistence failure carrying "disk full", distinct from a validation
failure. -/
theorem post_fs_failure_witness :
    (POST goodReq fsRawFail).1 = fsFailResponse "disk full" ∧
    (POST goodReq fsRawFail).1.details = some "disk full" ∧
    fsFailResponse "disk full" ≠ validationFailResponse [] :=
  post_fs_failure_distinct_category goodReq fsRawFail "s3cret" goodBody sampleDoc
    "disk full" [] rfl rfl (by decide) rfl rfl (by decide)
    (Or.inr (Or.inr (Or.inl ⟨rfl, rfl, rfl⟩)))

/-! ### C8 -/

/-- C8: normalization and serialization are deterministic across the
workflow: two successful ingestions of the same valid payload — in
possibly different requests, at different timestamps — write
byte-identical artifact contents, and in particular byte-identical
normalized output. -/
theorem post_reingest_same_payload_identical_bytes
    (req₁ req₂ : IngestRequest) (s₁ s₂ : String) (b₁ b₂ payload : Json)
    (hs₁ : req₁.adminSecret = some s₁) (hb₁ : req₁.body = some b₁)
    (henv₁ : envelopeOk b₁ = true)
    (hpw₁ : getField b₁ "adminPassword" = some (Json.str s₁))
    (hp₁ : getField b₁ "payload" = some payload)
    (hs₂ : req₂.adminSecret = some s₂) (hb₂ : req₂.body = some b₂)
    (henv₂ : envelopeOk b₂ = true)
    (hpw₂ : getField b₂ "adminPassword" = some (Json.str s₂))
    (hp₂ : getField b₂ "payload" = some payload)
    (hv : (validateBhagavadGitaShastra payload).ok = true) :
    (POST req₁ ⟨none, none, none, none⟩).2.map Prod.snd =
      (POST req₂ ⟨none, none, none, none⟩).2.map Prod.snd ∧
    (POST req₁ ⟨none, none, none, none⟩).2.map Prod.snd =
      [stringify2 payload, stringify2 (normalizeBhagavadGita payload)] := by
  rw [POST_auth req₁ ⟨none, none, none, none⟩ s₁ b₁ payload hs₁ hb₁ henv₁ hpw₁ hp₁,
      POST_auth req₂ ⟨none, none, none, none⟩ s₂ b₂ payload hs₂ hb₂ henv₂ hpw₂ hp₂,
      ingestValidated_ok req₁ payload hv, ingestValidated_ok req₂ payload hv]
  exact ⟨rfl, rfl⟩

/-- A second request body for the same payload under a different
password. -/
def goodBody2 : Json := Json.obj [("adminPassword", Json.str "pw2"), ("payload", sampleDoc)]

/-- A second configured request (different secret, cwd and timestamp)
carrying the same payload. -/
def goodReq2 : IngestRequest :=
  ⟨some "pw2", true, some goodBody2, "/srv", "2027-01-01T00:00:00.000Z"⟩

/-- C8 witness: two different successful requests ingesting the same
document write byte-identical contents. -/
theorem post_reingest_identical_bytes_witness :
    (POST goodReq ⟨none, none, none, none⟩).2.map Prod.snd =
      (POST goodReq2 ⟨none, none, none, none⟩).2.map Prod.snd ∧
    (POST goodReq ⟨none, none, none, none⟩).2.map Prod.snd =
      [stringify2 sampleDoc, stringify2 (normalizeBhagavadGita sampleDoc)] :=
  post_reingest_same_payload_identical_bytes goodReq goodReq2 "s3cret" "pw2"
    goodBody goodBody2 sampleDoc rfl rfl (by decide) rfl rfl rfl rfl (by decide) rfl rfl
    (by decide)

/-! ### C10 -/

/-- C10: every pre-validation guard — unconfigured secret, unparseable
body, bad envelope, non-string password, wrong password — makes `POST`
return `ok=false` with no validation-error payload and no summary,
perform no filesystem write, and behave identically for every
filesystem behavior (it never reaches validation, normalization or
persistence). -/
theorem post_early_reject_no_validation_no_writes
    (req : IngestRequest) (fsv fsv₂ : FsBehavior)
    (h : req.adminSecret = none ∨ req.body = none ∨
         (∃ b, req.body = some b ∧ envelopeOk b = false) ∨
         (∃ b, req.body = some b ∧ envelopeOk b = true ∧
           ∀ s, getField b "adminPassword" ≠ some (Json.str s)) ∨
         (∃ b s t, req.body = some b ∧ envelopeOk b = true ∧
           getField b "adminPassword" = some (Json.str s) ∧
           req.adminSecret = some t ∧ s ≠ t)) :
    (POST req fsv).2 = [] ∧ (POST req fsv).1.ok = false ∧
    (POST req fsv).1.errors = none ∧ (POST req fsv).1.normalizedSummary = none ∧
    POST req fsv₂ = POST req fsv := by
  unfold POST
  rcases h with h | h | ⟨b, hb, henv⟩ | ⟨b, hb, henv, hpw⟩ |
    ⟨b, s, t, hb, henv, hpw, hsec, hne⟩
  · rw [h]
    exact ⟨by trivial, by trivial, by trivial, by trivial, by trivial⟩
  · cases hsec : req.adminSecret with
    | none => exact ⟨by trivial, by trivial, by trivial, by trivial, by trivial⟩
    | some sec =>
      rw [h]
      exact ⟨by trivial, by trivial, by trivial, by trivial, by trivial⟩
  · cases hsec : req.adminSecret with
    | none => exact ⟨by trivial, by trivial, by trivial, by trivial, by trivial⟩
    | some sec =>
      rw [hb]
      simp only [henv, Bool.false_eq_true, if_false]
      exact ⟨by trivial, by trivial, by trivial, by trivial, by trivial⟩
  · cases hsec : req.adminSecret with
    | none => exact ⟨by trivial, by trivial, by trivial, by trivial, by trivial⟩
    | some sec =>
      rw [hb]
      simp only [henv, if_true]
      cases hpw' : getField b "adminPassword" with
      | none => exact ⟨by trivial, by trivial, by trivial, by trivial, by trivial⟩
      | some j =>
        cases j with
        | str s => exact absurd hpw' (hpw s)
        | null => exact ⟨by trivial, by trivial, by trivial, by trivial, by trivial⟩
        | bool v => exact ⟨by trivial, by trivial, by trivial, by trivial, by trivial⟩
        | num n => exact ⟨by trivial, by trivial, by trivial, by trivial, by trivial⟩
        | arr xs => exact ⟨by trivial, by trivial, by trivial, by trivial, by trivial⟩
        | obj fs => exact ⟨by trivial, by trivial, by trivial, by trivial, by trivial⟩
  · rw [hsec, hb]
    simp only [henv, if_true]
    rw [hpw]
    simp only [hne, if_false]
    exact ⟨by trivial, by trivial, by trivial, by trivial, by trivial⟩

/-- A request whose body parses but whose password is wrong. -/
def wrongPwBody : Json := Json.obj [("adminPassword", Json.str "guess"), ("payload", sampleDoc)]

/-- The wrong-password request. -/
def wrongPwReq : IngestRequest :=
  ⟨some "s3cret", false, some wrongPwBody, "/app", "2026-01-01T00:00:00.000Z"⟩

/-- C10 witness: a wrong password is rejected with `ok=false`, no
error payload, no summary, no writes, independently of the filesystem
behavior. -/
theorem post_early_reject_witness :
    (POST wrongPwReq ⟨none, none, none, none⟩).2 = [] ∧
    (POST wrongPwReq ⟨none, none, none, none⟩).1.ok = false ∧
    (POST wrongPwReq ⟨none, none, none, none⟩).1.errors = none ∧
    (POST wrongPwReq ⟨none, none, none, none⟩).1.normalizedSummary = none ∧
    POST wrongPwReq ⟨some "boom", none, none, none⟩ =
      POST wrongPwReq ⟨none, none, none, none⟩ :=
  post_early_reject_no_validation_no_writes wrongPwReq ⟨none, none, none, none⟩
    ⟨some "boom", none, none, none⟩
    (Or.inr (Or.inr (Or.inr (Or.inr
      ⟨wrongPwBody, "guess", "s3cret", rfl, by decide, rfl, rfl, by decide⟩))))
